import Mathlib

/-!
Shallow embedding of `src/iohclustering/cluster_base.py` (IOHClustering).

Real numbers are modelled as `ℚ` (exact arithmetic; floating-point tolerance
in the spec's round-trip properties becomes exact equality).  NumPy arrays are
lists of rows (`List (List ℚ)`); `np.min/np.max(…, axis=0)` become columnwise
folds, `np.tile(v, k)` becomes `List.join (List.replicate k v)`, and
`reshape(k, F)` becomes row-major chunking.

The repository files `cluster_metrics.py` (the `CLUSTER_METRICS` registry) and
`cluster_baseline_problems.py` (the `CLUSTER_BASELINE_DATASETS` catalog) are
not part of the sources; their contents are modelled from the spec as
parameters (an association list of metric names, and an association list of
(id, canonical lowercase name) catalog entries).

Filesystem reads (`os.path.exists` + `np.loadtxt`) are modelled by an `FS`
record mapping a dataset name to the parsed contents of `{name}.txt`, either
in the current working directory or in the `banchmark_datasets` directory.
-/

namespace IOHClustering

/-- An error metric: `(normalized_data, centers) -> scalar`. -/
def Metric : Type := List (List ℚ) → List (List ℚ) → ℚ

/-- Error taxonomy of the library: each constructor corresponds to one of the
`ValueError`s raised in `cluster_base.py` (or, for `datasetNotFound`, the
`IOError` that `np.loadtxt` raises on a missing file). -/
inductive ClusterError where
  | unknownMetric (name : String)
  | unknownDatasetName (name : String)
  | unknownDatasetId (id : ℕ)
  | datasetNotFound (name : String)
deriving DecidableEq, Repr

/-- Filesystem as seen by `create_cluster_problem`: `cwd s` is the parsed
contents of `{s}.txt` in the working directory when that file exists (the
`os.path.exists` branch), `bench s` the parsed contents of
`banchmark_datasets/{s}.txt`. -/
structure FS where
  cwd : String → Option (List (List ℚ))
  bench : String → Option (List (List ℚ))

/-- The `dataset : str | np.ndarray` argument of `create_cluster_problem`. -/
inductive DatasetRef where
  | arr (data : List (List ℚ))
  | name (s : String)

/-- The `error_metric : str | callable` argument of `create_cluster_problem`. -/
inductive MetricRef where
  | name (s : String)
  | func (g : Metric)

/-- `np.size(data, axis=1)`: the number of columns (features) of a
row-rectangular table. -/
def ncols (data : List (List ℚ)) : ℕ := (data.headD []).length

/-- Columnwise aggregation: `np.min(data, axis=0)` is `colAgg min data`,
`np.max(data, axis=0)` is `colAgg max data`. -/
def colAgg (f : ℚ → ℚ → ℚ) : List (List ℚ) → List ℚ
  | [] => []
  | r :: rs => rs.foldl (fun acc row => List.zipWith f acc row) r

/-- `np.min(data, axis=0)`. -/
def colMin (data : List (List ℚ)) : List ℚ := colAgg min data

/-- `np.max(data, axis=0)`. -/
def colMax (data : List (List ℚ)) : List ℚ := colAgg max data

/-- Ternary pointwise combination of equal-length vectors (NumPy elementwise
arithmetic over three arrays). -/
def zipWith3 (f : ℚ → ℚ → ℚ → ℚ) : List ℚ → List ℚ → List ℚ → List ℚ
  | a :: as, b :: bs, c :: cs => f a b c :: zipWith3 f as bs cs
  | _, _, _ => []

/-- One entry of line 78: `(x - min) / (max - min)`.  In `ℚ`, division by a
zero range yields `0` where NumPy would yield `NaN`/`inf`; the code performs
the division unguarded either way. -/
def norm1 (mn mx x : ℚ) : ℚ := (x - mn) / (mx - mn)

/-- One entry of line 101: `x * (max - min) + min`. -/
def denorm1 (mn mx x : ℚ) : ℚ := x * (mx - mn) + mn

/-- Normalize one row against per-feature min/max vectors. -/
def normalizeRow (mins maxs row : List ℚ) : List ℚ :=
  zipWith3 norm1 mins maxs row

/-- Line 78: `data_normalized = (data - min) / (max - min)`, broadcast over
all rows. -/
def normalizeData (data : List (List ℚ)) : List (List ℚ) :=
  data.map (normalizeRow (colMin data) (colMax data))

/-- `np.tile(v, k)`. -/
def tile (k : ℕ) (v : List ℚ) : List ℚ := List.flatten (List.replicate k v)

/-- Row-major `reshape(k, F)` of a flat vector of length `k * F`. -/
def reshape : ℕ → ℕ → List ℚ → List (List ℚ)
  | 0, _, _ => []
  | k + 1, F, x => x.take F :: reshape k F (x.drop F)

/-- Lines 100-102: `retransform(X) = (X * (data_max - data_min) + data_min)
.reshape(k, -1)`, where `data_max`/`data_min` are the tiled per-feature
extrema of the dataset. -/
def retransformFn (data : List (List ℚ)) (k : ℕ) (X : List ℚ) : List (List ℚ) :=
  reshape k (ncols data)
    (zipWith3 denorm1 (tile k (colMin data)) (tile k (colMax data)) X)

/-- Identity metadata handed to `ioh.wrap_problem` (name, bounds, dimension,
instance, direction) plus the catalog id optionally attached by `f.set_id`
after construction. -/
structure ProblemMeta where
  name : String
  dimension : ℕ
  lb : List ℚ
  ub : List ℚ
  minimize : Bool
  instanceNum : ℕ
  problemId : Option ℕ
deriving Repr

/-- The pair returned by `create_cluster_problem`: the wrapped problem
(metadata plus objective closure) and the `retransform` closure. -/
structure ClusterProblem where
  meta : ProblemMeta
  obj : List ℚ → ℚ
  retransform : List ℚ → List (List ℚ)

/-- Lines 73-104 of `create_cluster_problem`, after the dataset and the
metric have been resolved: normalize the data, close the objective over the
resolved metric (line 82: metric applied to the normalized data and
`x.reshape(k, F)`), wrap with metadata (lines 85-94; `lb=0`, `ub=1` are
broadcast by ioh to every one of the `k * F` dimensions), attach the catalog
id when present (lines 97-98), and build `retransform` (lines 100-102). -/
def mkClusterProblem (data : List (List ℚ)) (label : String) (id : Option ℕ)
    (k inst : ℕ) (g : Metric) : ClusterProblem :=
  let F := ncols data
  { meta :=
      { name := "Cluster_" ++ label ++ "_k" ++ toString k
        dimension := k * F
        lb := List.replicate (k * F) 0
        ub := List.replicate (k * F) 1
        minimize := true
        instanceNum := inst
        problemId := id }
    obj := fun x => g (normalizeData data) (reshape k F x)
    retransform := fun X => retransformFn data k X }

/-- Python's `str.lower()` (line 163), characterwise on the string's data. -/
def lowerStr (s : String) : String := ⟨s.data.map Char.toLower⟩

/-- Lines 163-169: `get_problem_id` lowercases the name and scans the catalog
(in insertion order, as Python dict iteration does) for the entry whose
stored canonical lowercase name matches; raises
`ValueError(f"Unknown dataset name {name}")` otherwise. -/
def get_problem_id (catalog : List (ℕ × String)) (dataset_name : String) :
    Except ClusterError ℕ :=
  let n := lowerStr dataset_name
  match catalog.find? (fun p => p.2 == n) with
  | some p => .ok p.1
  | none => .error (.unknownDatasetName n)

/-- Lines 54-64: resolve the dataset reference to (data, label, optional
catalog id).  An array is used directly under the sentinel label `"custom"`;
a string first tries `{s}.txt` in the working directory (no catalog id), and
otherwise resolves the catalog id (which may fail) before loading
`banchmark_datasets/{s}.txt`. -/
def resolveDataset (fs : FS) (catalog : List (ℕ × String)) :
    DatasetRef → Except ClusterError (List (List ℚ) × String × Option ℕ)
  | .arr d => .ok (d, "custom", none)
  | .name s =>
    match fs.cwd s with
    | some d => .ok (d, s, none)
    | none =>
      match get_problem_id catalog s with
      | .error e => .error e
      | .ok i =>
        match fs.bench s with
        | some d => .ok (d, s, some i)
        | none => .error (.datasetNotFound s)

/-- Lines 66-70: a string metric is looked up in `CLUSTER_METRICS`
(`ValueError(f"Unknown metric {m}")` when absent); a callable is used as-is. -/
def resolveMetric (metrics : List (String × Metric)) :
    MetricRef → Except ClusterError Metric
  | .func g => .ok g
  | .name m =>
    match metrics.find? (fun p => p.1 == m) with
    | some p => .ok p.2
    | none => .error (.unknownMetric m)

/-- `create_cluster_problem(dataset, k, instance, error_metric)`, lines
12-104: resolve the dataset (lines 54-64), resolve the metric (lines 66-70),
then build the problem and its retransform (lines 73-104).  There is no
zero-range check anywhere: a constant feature flows into the unguarded
division of line 78. -/
def create_cluster_problem (fs : FS) (catalog : List (ℕ × String))
    (metrics : List (String × Metric)) (dataset : DatasetRef)
    (k inst : ℕ) (error_metric : MetricRef) :
    Except ClusterError ClusterProblem :=
  match resolveDataset fs catalog dataset with
  | .error e => .error e
  | .ok (data, label, id) =>
    match resolveMetric metrics error_metric with
    | .error e => .error e
    | .ok g => .ok (mkClusterProblem data label id k inst g)

/-- Lines 198-209: `get_problem` converts a string fid through
`get_problem_id`, checks membership in the catalog keys
(`ValueError(f"Unknown dataset id {fid}")` when absent), evaluates
`CLUSTER_METRICS["mse_euclidean"]` (a `KeyError`, modelled as
`unknownMetric`, if the registry lacked it) and delegates to
`create_cluster_problem` with the catalog dataset name and that metric
callable. -/
def get_problem (fs : FS) (catalog : List (ℕ × String))
    (metrics : List (String × Metric)) (fid : ℕ ⊕ String) (inst k : ℕ) :
    Except ClusterError ClusterProblem :=
  match (match fid with
         | .inl i => Except.ok i
         | .inr s => get_problem_id catalog s) with
  | .error e => .error e
  | .ok i =>
    match catalog.find? (fun p => p.1 == i) with
    | none => .error (.unknownDatasetId i)
    | some p =>
      match metrics.find? (fun q => q.1 == "mse_euclidean") with
      | none => .error (.unknownMetric "mse_euclidean")
      | some q =>
        create_cluster_problem fs catalog metrics (.name p.2) k inst (.func q.2)

/-- Whether one call to `download_benchmark_datasets` downloads-and-extracts
or returns early. -/
inductive FetchAction where
  | skipWarn
  | fetch
deriving DecidableEq, Repr

/-- Lines 126-138: `download_benchmark_datasets(warn)` returns early (with a
warning) only when `os.path.isdir(target) and warn` holds; in every other
case it runs `os.makedirs` and downloads and extracts the tarball. -/
def download_benchmark_datasets (dirExists warn : Bool) : FetchAction :=
  if dirExists && warn then .skipWarn else .fetch

/-- Line 234: `load_problems` calls `download_benchmark_datasets(warn=False)`. -/
def load_problems_fetch (dirExists : Bool) : FetchAction :=
  download_benchmark_datasets dirExists false

/-- Modelled from the spec: `mse_euclidean` lives in `cluster_metrics.py`,
which is not among the sources.  Spec §4.1: "mean squared Euclidean distance
from each point to its nearest supplied center".  `sqDist` is the squared
Euclidean distance between a point and a center. -/
def sqDist (p c : List ℚ) : ℚ := (List.zipWith (fun a b => (a - b) ^ 2) p c).sum

/-- Modelled from the spec: squared distance from a point to its nearest
center among the supplied ones (spec §4.1). -/
def nearestSq (p : List ℚ) : List (List ℚ) → ℚ
  | [] => 0
  | c :: cs => cs.foldl (fun acc c2 => min acc (sqDist p c2)) (sqDist p c)

/-- Modelled from the spec: the `mse_euclidean` metric of §4.1 — the mean
over all data points of the squared Euclidean distance to the nearest
center. -/
def mse_euclidean : Metric :=
  fun data centers =>
    (data.map (fun p => nearestSq p centers)).sum / (data.length : ℚ)

/-- An empty filesystem: no `{name}.txt` anywhere. -/
def fs0 : FS := ⟨fun _ => none, fun _ => none⟩

/-- Modelled from the spec: a one-entry metric registry — §4.1 requires the
registry to expose at least `mse_euclidean`. -/
def metrics0 : List (String × Metric) := [("mse_euclidean", mse_euclidean)]

/-- A filesystem whose working directory holds `mydata.txt` with one row. -/
def fsCwd : FS := ⟨fun s => if s == "mydata" then some [[1]] else none, fun _ => none⟩

/-- A filesystem whose benchmark-data directory holds `iris.txt` with one
row (nothing in the working directory). -/
def fsBench : FS := ⟨fun _ => none, fun s => if s == "iris" then some [[2]] else none⟩

theorem zipWith3_length (f : ℚ → ℚ → ℚ → ℚ) (a b c : List ℚ)
    (h1 : a.length = b.length) (h2 : a.length = c.length) :
    (zipWith3 f a b c).length = a.length := by
  induction a generalizing b c with
  | nil => cases b <;> cases c <;> simp [zipWith3]
  | cons x xs ih =>
    cases b with
    | nil => simp at h1
    | cons y ys =>
      cases c with
      | nil => simp at h2
      | cons z zs =>
        simp only [zipWith3, List.length_cons]
        rw [ih ys zs (by simpa using h1) (by simpa using h2)]

theorem zipWith3_append (f : ℚ → ℚ → ℚ → ℚ) (a b c a2 b2 c2 : List ℚ)
    (h1 : a.length = b.length) (h2 : a.length = c.length) :
    zipWith3 f (a ++ a2) (b ++ b2) (c ++ c2) =
      zipWith3 f a b c ++ zipWith3 f a2 b2 c2 := by
  induction a generalizing b c with
  | nil =>
    cases b with
    | cons _ _ => simp at h1
    | nil =>
      cases c with
      | cons _ _ => simp at h2
      | nil => simp [zipWith3]
  | cons x xs ih =>
    cases b with
    | nil => simp at h1
    | cons y ys =>
      cases c with
      | nil => simp at h2
      | cons z zs =>
        simp only [List.cons_append, zipWith3, List.cons.injEq, true_and]
        exact ih ys zs (by simpa using h1) (by simpa using h2)

/-- Denormalizing one row undoes normalizing it, feature by feature, as long
as every feature has a nonzero range. -/
theorem denorm_norm_row (mins maxs row : List ℚ)
    (hne : List.Forall₂ (fun a b => a ≠ b) mins maxs)
    (hlen : row.length = mins.length) :
    zipWith3 denorm1 mins maxs (normalizeRow mins maxs row) = row := by
  induction hne generalizing row with
  | nil =>
    cases row with
    | nil => rfl
    | cons x xs => simp at hlen
  | @cons a b l1 l2 hab htail ih =>
    cases row with
    | nil => simp at hlen
    | cons x xs =>
      have hba : b - a ≠ 0 := sub_ne_zero_of_ne (Ne.symm hab)
      simp only [normalizeRow, zipWith3, List.cons.injEq]
      constructor
      · simp only [denorm1, norm1]
        rw [div_mul_cancel₀ _ hba, sub_add_cancel]
      · exact ih xs (by simpa using hlen)

/-- Core of the round-trip: denormalizing with the `k`-tiled extrema and
reshaping row-major recovers every center matrix whose rows were normalized
feature-wise and flattened. -/
theorem retransform_flatten_normalize (mins maxs : List ℚ) (C : List (List ℚ)) (F : ℕ)
    (hml : mins.length = F)
    (hne : List.Forall₂ (fun a b => a ≠ b) mins maxs)
    (hr : ∀ r ∈ C, r.length = F) :
    reshape C.length F
      (zipWith3 denorm1 (List.flatten (List.replicate C.length mins))
        (List.flatten (List.replicate C.length maxs))
        (List.flatten (C.map (normalizeRow mins maxs)))) = C := by
  have hmaxl : maxs.length = F := hne.length_eq ▸ hml
  induction C with
  | nil => simp [reshape]
  | cons c cs ih =>
    have hc : c.length = F := hr c (List.mem_cons_self ..)
    have hnc : (normalizeRow mins maxs c).length = mins.length :=
      zipWith3_length norm1 mins maxs c (hml.trans hmaxl.symm) (hml.trans hc.symm)
    simp only [List.length_cons, List.replicate_succ, List.map_cons, List.flatten_cons]
    rw [zipWith3_append _ _ _ _ _ _ _ (hml.trans hmaxl.symm) hnc.symm]
    rw [denorm_norm_row mins maxs c hne (hc.trans hml.symm)]
    set Z := zipWith3 denorm1 (List.flatten (List.replicate cs.length mins))
      (List.flatten (List.replicate cs.length maxs))
      (List.flatten (cs.map (normalizeRow mins maxs))) with hZ
    have ht : (c ++ Z).take F = c := by
      rw [← hc]; exact List.take_left ..
    have hd : (c ++ Z).drop F = Z := by
      rw [← hc]; exact List.drop_left ..
    simp only [reshape, ht, hd]
    rw [ih (fun r hm => hr r (List.mem_cons_of_mem _ hm))]

theorem foldl_zipWith_length (f : ℚ → ℚ → ℚ) (rs : List (List ℚ)) (acc : List ℚ) (F : ℕ)
    (ha : acc.length = F) (hr : ∀ r ∈ rs, r.length = F) :
    (rs.foldl (fun a row => List.zipWith f a row) acc).length = F := by
  induction rs generalizing acc with
  | nil => simpa using ha
  | cons r rs ih =>
    simp only [List.foldl_cons]
    refine ih _ ?_ (fun r2 h => hr r2 (List.mem_cons_of_mem _ h))
    rw [List.length_zipWith, ha, hr r (List.mem_cons_self ..)]
    exact Nat.min_self F

/-- Columnwise folds of a nonempty rectangular table keep the feature
count. -/
theorem colAgg_length (f : ℚ → ℚ → ℚ) (data : List (List ℚ)) (F : ℕ)
    (hne : data ≠ []) (hr : ∀ r ∈ data, r.length = F) :
    (colAgg f data).length = F := by
  match data, hne with
  | r :: rs, _ =>
    show (rs.foldl (fun acc row => List.zipWith f acc row) r).length = F
    exact foldl_zipWith_length f rs r F (hr r (List.mem_cons_self ..))
      (fun r2 h => hr r2 (List.mem_cons_of_mem _ h))

/-- C1: for every rectangular dataset with at least one feature, every
feature of nonzero range, and every `k ≥ 1`, the `retransform` of the
problem built by `create_cluster_problem` exactly inverts the dataset's
normalization composed with row-major flattening on every `(k, F)` center
matrix (the floating-point-tolerance statement of the spec holds exactly
over `ℚ`). -/
theorem create_retransform_inverts_normalization
    (data C : List (List ℚ)) (k inst : ℕ) (label : String) (id : Option ℕ) (g : Metric)
    (hrect : ∀ r ∈ data, r.length = ncols data)
    (hF : 1 ≤ ncols data) (_hk : 1 ≤ k)
    (hrange : List.Forall₂ (fun a b => a ≠ b) (colMin data) (colMax data))
    (hC : C.length = k) (hCr : ∀ r ∈ C, r.length = ncols data) :
    (mkClusterProblem data label id k inst g).retransform
      (List.flatten (C.map (normalizeRow (colMin data) (colMax data)))) = C := by
  have hdne : data ≠ [] := by
    intro h; rw [h] at hF; simp [ncols] at hF
  have hmin : (colMin data).length = ncols data := colAgg_length min data _ hdne hrect
  show retransformFn data k _ = C
  unfold retransformFn tile
  rw [← hC]
  exact retransform_flatten_normalize (colMin data) (colMax data) C (ncols data) hmin hrange hCr

/-- Witness for C1 at the concrete dataset `[[0,0],[2,2],[4,4]]`, `k = 1`,
center matrix `[[1,1]]`. -/
theorem create_retransform_inverts_normalization_witness :
    (mkClusterProblem [[0,0],[2,2],[4,4]] "custom" none 1 7 mse_euclidean).retransform
      (List.flatten ([[1,1]].map
        (normalizeRow (colMin [[0,0],[2,2],[4,4]]) (colMax [[0,0],[2,2],[4,4]])))) = [[1,1]] :=
  create_retransform_inverts_normalization [[0,0],[2,2],[4,4]] [[1,1]] 1 7 "custom" none
    mse_euclidean (by simp [ncols]) (by simp [ncols]) (by norm_num)
    (by norm_num [colMin, colMax, colAgg, zipWith3, min_def, max_def]) rfl
    (by simp [ncols])

/-- Inversion principle for `create_cluster_problem`: a problem is returned
exactly when both the dataset and the metric resolve, and it is then the one
built by `mkClusterProblem`. -/
theorem create_cluster_problem_eq_ok (fs : FS) (catalog : List (ℕ × String))
    (metrics : List (String × Metric)) (dataset : DatasetRef) (k inst : ℕ)
    (error_metric : MetricRef) (p : ClusterProblem) :
    create_cluster_problem fs catalog metrics dataset k inst error_metric = .ok p ↔
      ∃ data label id g,
        resolveDataset fs catalog dataset = .ok (data, label, id) ∧
        resolveMetric metrics error_metric = .ok g ∧
        p = mkClusterProblem data label id k inst g := by
  unfold create_cluster_problem
  rcases hd : resolveDataset fs catalog dataset with e | ⟨data, label, id⟩ <;>
    rcases hm : resolveMetric metrics error_metric with e2 | g <;>
      simp [hm, eq_comm]
  constructor
  · intro hp
    exact ⟨data, label, id, ⟨rfl, rfl, rfl⟩, hp⟩
  · rintro ⟨d, l, i, ⟨rfl, rfl, rfl⟩, hp⟩
    exact hp

/-- C2 (code-bug evidence): on the degenerate dataset `[[0,1],[2,1]]`, whose
second feature is constant, `create_cluster_problem` raises nothing and
returns a problem; the constant feature's column is normalized through the
unguarded division of line 78 (exactly `0/0` there — NumPy emits NaN where
the `ℚ` model yields `0`), with no `DegenerateFeature` detection anywhere. -/
theorem degenerate_feature_builds_problem :
    create_cluster_problem fs0 [] [] (.arr [[0,1],[2,1]]) 1 1 (.func mse_euclidean) =
      .ok (mkClusterProblem [[0,1],[2,1]] "custom" none 1 1 mse_euclidean) ∧
    normalizeData [[0,1],[2,1]] = [[0,0],[1,0]] := by
  refine ⟨rfl, ?_⟩
  norm_num [normalizeData, normalizeRow, colMin, colMax, colAgg, norm1, zipWith3,
    min_def, max_def]

/-- C3 (code-bug evidence): the skip condition of line 129 is
`os.path.isdir(target) and warn`, so with the directory already present the
fetch is skipped only when `warn=True`; the `warn=False` call made by
`load_problems` (line 234) downloads and extracts again. -/
theorem download_refetches_when_dir_exists_without_warn :
    download_benchmark_datasets true false = .fetch ∧
    load_problems_fetch true = .fetch ∧
    download_benchmark_datasets true true = .skipWarn :=
  ⟨rfl, rfl, rfl⟩

/-- C4: every successful `create_cluster_problem` call returns metadata with
name `"Cluster_{label}_k{k}"` (label `"custom"` when the dataset was passed
as an array), dimension `k * F`, lower bound `0` and upper bound `1` in
every one of the `k * F` dimensions, minimization direction, and the
caller-supplied instance number. -/
theorem create_metadata_spec (fs : FS) (catalog : List (ℕ × String))
    (metrics : List (String × Metric)) (dataset : DatasetRef) (k inst : ℕ)
    (error_metric : MetricRef) (p : ClusterProblem)
    (h : create_cluster_problem fs catalog metrics dataset k inst error_metric = .ok p) :
    ∃ data label id g,
      resolveDataset fs catalog dataset = .ok (data, label, id) ∧
      resolveMetric metrics error_metric = .ok g ∧
      (∀ d, dataset = .arr d → data = d ∧ label = "custom") ∧
      p.meta.name = "Cluster_" ++ label ++ "_k" ++ toString k ∧
      p.meta.dimension = k * ncols data ∧
      p.meta.lb = List.replicate (k * ncols data) 0 ∧
      p.meta.ub = List.replicate (k * ncols data) 1 ∧
      (∀ j, j < p.meta.dimension → p.meta.lb.getD j 1 = 0 ∧ p.meta.ub.getD j 0 = 1) ∧
      p.meta.minimize = true ∧
      p.meta.instanceNum = inst := by
  rcases (create_cluster_problem_eq_ok fs catalog metrics dataset k inst error_metric p).1 h
    with ⟨data, label, id, g, hd, hm, hp⟩
  subst hp
  refine ⟨data, label, id, g, hd, hm, ?_, rfl, rfl, rfl, rfl, ?_, rfl, rfl⟩
  · intro d harr
    subst harr
    simp only [resolveDataset, Except.ok.injEq, Prod.mk.injEq] at hd
    exact ⟨hd.1.symm, hd.2.1.symm⟩
  · intro j hj
    have hj2 : j < k * ncols data := by simpa [mkClusterProblem] using hj
    constructor
    · simp [mkClusterProblem, List.getD, List.getElem?_replicate, hj2]
    · simp [mkClusterProblem, List.getD, List.getElem?_replicate, hj2]

/-- Witness for C4 at the concrete array dataset `[[0,0],[2,2]]`, `k = 2`,
instance `3`. -/
theorem create_metadata_spec_witness :
    (mkClusterProblem [[0,0],[2,2]] "custom" none 2 3 mse_euclidean).meta.name =
      "Cluster_custom_k2" ∧
    (mkClusterProblem [[0,0],[2,2]] "custom" none 2 3 mse_euclidean).meta.dimension = 4 ∧
    (mkClusterProblem [[0,0],[2,2]] "custom" none 2 3 mse_euclidean).meta.instanceNum = 3 := by
  obtain ⟨data, label, id, g, hd, hm, harr, hname, hdim, _, _, _, _, hinst⟩ :=
    create_metadata_spec fs0 [] [] (.arr [[0,0],[2,2]]) 2 3 (.func mse_euclidean)
      (mkClusterProblem [[0,0],[2,2]] "custom" none 2 3 mse_euclidean) rfl
  obtain ⟨rfl, rfl⟩ := harr [[0,0],[2,2]] rfl
  exact ⟨hname.trans rfl, hdim.trans rfl, hinst⟩

/-- C5: a string metric name absent from the registry makes
`create_cluster_problem` fail with the unknown-metric error before any
problem is constructed, while a registered name resolves to its associated
function: the call behaves exactly as if that function had been passed
directly. -/
theorem unknown_metric_spec (fs : FS) (catalog : List (ℕ × String))
    (metrics : List (String × Metric)) (d : List (List ℚ)) (dataset : DatasetRef)
    (k inst : ℕ) (m : String) :
    (metrics.find? (fun q => q.1 == m) = none →
      create_cluster_problem fs catalog metrics (.arr d) k inst (.name m) =
        .error (.unknownMetric m)) ∧
    (∀ q, metrics.find? (fun q => q.1 == m) = some q →
      create_cluster_problem fs catalog metrics dataset k inst (.name m) =
        create_cluster_problem fs catalog metrics dataset k inst (.func q.2)) := by
  constructor
  · intro h
    simp [create_cluster_problem, resolveDataset, resolveMetric, h]
  · intro q hq
    unfold create_cluster_problem
    have hres : resolveMetric metrics (.name m) = .ok q.2 := by
      simp [resolveMetric, hq]
    rw [hres]
    exact rfl

/-- Witness for C5: the unregistered name `"bogus"` fails against the
one-metric registry, and `"mse_euclidean"` resolves to the registered
function. -/
theorem unknown_metric_spec_witness :
    create_cluster_problem fs0 [] metrics0 (.arr [[0],[1]]) 2 1 (.name "bogus") =
      .error (.unknownMetric "bogus") ∧
    create_cluster_problem fs0 [] metrics0 (.arr [[0],[1]]) 2 1 (.name "mse_euclidean") =
      create_cluster_problem fs0 [] metrics0 (.arr [[0],[1]]) 2 1 (.func mse_euclidean) :=
  ⟨(unknown_metric_spec fs0 [] metrics0 [[0],[1]] (.arr [[0],[1]]) 2 1 "bogus").1 rfl,
   (unknown_metric_spec fs0 [] metrics0 [[0],[1]] (.arr [[0],[1]]) 2 1 "mse_euclidean").2
     ("mse_euclidean", mse_euclidean) rfl⟩

/-- C10: the instance number influences only metadata: two problems built by
`create_cluster_problem` from the same dataset, `k` and error metric but
different instance numbers have objective functions that agree on every
input vector. -/
theorem objective_independent_of_instance (fs : FS) (catalog : List (ℕ × String))
    (metrics : List (String × Metric)) (dataset : DatasetRef) (k i1 i2 : ℕ)
    (error_metric : MetricRef) (p1 p2 : ClusterProblem)
    (h1 : create_cluster_problem fs catalog metrics dataset k i1 error_metric = .ok p1)
    (h2 : create_cluster_problem fs catalog metrics dataset k i2 error_metric = .ok p2)
    (x : List ℚ) : p1.obj x = p2.obj x := by
  rcases (create_cluster_problem_eq_ok fs catalog metrics dataset k i1 error_metric p1).1 h1
    with ⟨d1, l1, id1, g1, hd1, hm1, hp1⟩
  rcases (create_cluster_problem_eq_ok fs catalog metrics dataset k i2 error_metric p2).1 h2
    with ⟨d2, l2, id2, g2, hd2, hm2, hp2⟩
  rw [hd1] at hd2
  rw [hm1] at hm2
  simp only [Except.ok.injEq, Prod.mk.injEq] at hd2 hm2
  obtain ⟨rfl, rfl, rfl⟩ := hd2
  subst hm2
  subst hp1
  subst hp2
  rfl

/-- Witness for C10: instances `5` and `7` of the same one-cluster problem
agree at the input `[0]`. -/
theorem objective_independent_of_instance_witness :
    (mkClusterProblem [[0],[1]] "custom" none 1 5 mse_euclidean).obj [0] =
    (mkClusterProblem [[0],[1]] "custom" none 1 7 mse_euclidean).obj [0] :=
  objective_independent_of_instance fs0 [] [] (.arr [[0],[1]]) 1 5 7 (.func mse_euclidean)
    (mkClusterProblem [[0],[1]] "custom" none 1 5 mse_euclidean)
    (mkClusterProblem [[0],[1]] "custom" none 1 7 mse_euclidean) rfl rfl [0]

/-- C6: an integer fid outside the catalog makes `get_problem` fail with the
unknown-dataset-id error without building any problem; a catalog fid
(integer, or name resolved to an integer through `get_problem_id`)
delegates to `create_cluster_problem` with the catalog dataset name and the
registered `mse_euclidean` metric. -/
theorem get_problem_spec (fs : FS) (catalog : List (ℕ × String))
    (metrics : List (String × Metric)) (i inst k : ℕ) :
    (catalog.find? (fun p => p.1 == i) = none →
      get_problem fs catalog metrics (.inl i) inst k = .error (.unknownDatasetId i)) ∧
    (∀ p, catalog.find? (fun p => p.1 == i) = some p →
      ∀ q, metrics.find? (fun q => q.1 == "mse_euclidean") = some q →
        get_problem fs catalog metrics (.inl i) inst k =
          create_cluster_problem fs catalog metrics (.name p.2) k inst (.func q.2)) ∧
    (∀ s : String, get_problem_id catalog s = .ok i →
      get_problem fs catalog metrics (.inr s) inst k =
        get_problem fs catalog metrics (.inl i) inst k) := by
  refine ⟨?_, ?_, ?_⟩
  · intro h
    simp [get_problem, h]
  · intro p hp q hq
    simp [get_problem, hp, hq]
  · intro s hs
    simp [get_problem, hs]

/-- Witness for C6 against the one-dataset catalog `[(1, "iris")]`: fid `7`
fails, fid `1` delegates to the builder on `"iris"` with `mse_euclidean`. -/
theorem get_problem_spec_witness :
    get_problem fs0 [(1, "iris")] metrics0 (.inl 7) 1 2 = .error (.unknownDatasetId 7) ∧
    get_problem fs0 [(1, "iris")] metrics0 (.inl 1) 1 2 =
      create_cluster_problem fs0 [(1, "iris")] metrics0 (.name "iris") 2 1
        (.func mse_euclidean) :=
  ⟨(get_problem_spec fs0 [(1, "iris")] metrics0 7 1 2).1 rfl,
   (get_problem_spec fs0 [(1, "iris")] metrics0 1 1 2).2.1 (1, "iris") rfl
     ("mse_euclidean", mse_euclidean) rfl⟩

/-- C7: a string dataset reference first tries `{s}.txt` in the working
directory — in that case the file's parsed rows are the data and no catalog
id is attached — and otherwise resolves the catalog id and loads
`banchmark_datasets/{s}.txt`, attaching that catalog id to the problem
after construction. -/
theorem string_dataset_resolution (fs : FS) (catalog : List (ℕ × String))
    (metrics : List (String × Metric)) (s : String) (k inst : ℕ) (g : Metric) :
    (∀ d, fs.cwd s = some d →
      create_cluster_problem fs catalog metrics (.name s) k inst (.func g) =
        .ok (mkClusterProblem d s none k inst g)) ∧
    (∀ i d, fs.cwd s = none → get_problem_id catalog s = .ok i → fs.bench s = some d →
      create_cluster_problem fs catalog metrics (.name s) k inst (.func g) =
        .ok (mkClusterProblem d s (some i) k inst g)) ∧
    (∀ d id, (mkClusterProblem d s id k inst g).meta.problemId = id) := by
  refine ⟨?_, ?_, fun d id => rfl⟩
  · intro d hd
    simp [create_cluster_problem, resolveDataset, resolveMetric, hd]
  · intro i d hcwd hid hbench
    simp [create_cluster_problem, resolveDataset, resolveMetric, hcwd, hid, hbench]

/-- Witness for C7: a working-directory override for `"mydata"` (no id
attached) and a catalog-resolved `"iris"` (id `1` attached). -/
theorem string_dataset_resolution_witness :
    create_cluster_problem fsCwd [] [] (.name "mydata") 1 1 (.func mse_euclidean) =
      .ok (mkClusterProblem [[1]] "mydata" none 1 1 mse_euclidean) ∧
    create_cluster_problem fsBench [(1, "iris")] [] (.name "iris") 1 1 (.func mse_euclidean) =
      .ok (mkClusterProblem [[2]] "iris" (some 1) 1 1 mse_euclidean) ∧
    (mkClusterProblem [[2]] "iris" (some 1) 1 1 mse_euclidean).meta.problemId = some 1 :=
  ⟨(string_dataset_resolution fsCwd [] [] "mydata" 1 1 mse_euclidean).1 [[1]] rfl,
   (string_dataset_resolution fsBench [(1, "iris")] [] "iris" 1 1 mse_euclidean).2.1
     1 [[2]] rfl rfl rfl,
   (string_dataset_resolution fsBench [(1, "iris")] [] "iris" 1 1 mse_euclidean).2.2
     [[2]] (some 1)⟩

/-- C9: `get_problem_id` lowercases the name before lookup (any two names
with the same lowercase form resolve identically), every returned ID is
stored in the catalog with the matching canonical lowercase name, and a
lowercased name absent from the catalog fails with the unknown-dataset-name
error. -/
theorem get_problem_id_spec (catalog : List (ℕ × String)) (name : String) :
    (∀ m : String, lowerStr m = lowerStr name →
      get_problem_id catalog m = get_problem_id catalog name) ∧
    (∀ i, get_problem_id catalog name = .ok i → (i, lowerStr name) ∈ catalog) ∧
    ((∀ p ∈ catalog, p.2 ≠ lowerStr name) →
      get_problem_id catalog name = .error (.unknownDatasetName (lowerStr name))) := by
  refine ⟨?_, ?_, ?_⟩
  · intro m hm
    simp only [get_problem_id, hm]
  · intro i h
    simp only [get_problem_id] at h
    rcases hf : catalog.find? (fun p => p.2 == lowerStr name) with _ | p
    · rw [hf] at h
      cases h
    · rw [hf] at h
      injection h with h
      subst h
      have hmem := List.mem_of_find?_eq_some hf
      have hp2 : p.2 = lowerStr name := by simpa using List.find?_some hf
      cases p with
      | mk a b =>
        simp only at hp2
        rw [← hp2]
        exact hmem
  · intro h
    have hf : catalog.find? (fun p => p.2 == lowerStr name) = none := by
      apply List.find?_eq_none.mpr
      intro p hp
      simpa using h p hp
    simp [get_problem_id, hf]

/-- Witness for C9 against the one-dataset catalog `[(3, "iris")]`: the
absent name `"Wine"` fails carrying its lowercase form, `"IRIS"` resolves
like `"iris"`, and the returned id `3` is stored under `"iris"`. -/
theorem get_problem_id_spec_witness :
    get_problem_id [(3, "iris")] "Wine" = .error (.unknownDatasetName "wine") ∧
    get_problem_id [(3, "iris")] "IRIS" = get_problem_id [(3, "iris")] "iris" ∧
    ((3 : ℕ), lowerStr "IRIS") ∈ [((3 : ℕ), "iris")] := by
  refine ⟨?_, ?_, ?_⟩
  · exact (get_problem_id_spec [(3, "iris")] "Wine").2.2 (by decide)
  · exact (get_problem_id_spec [(3, "iris")] "iris").1 "IRIS" rfl
  · exact (get_problem_id_spec [(3, "iris")] "IRIS").2.1 3 rfl

/-- C8: on the dataset `[[0,0],[2,2],[4,4]]` with `k = 1`, normalization
maps both features' ranges `[0,4]` onto `[0,1]`; the built problem's
objective at `[1/2, 1/2]` (the normalized data midpoint `[2,2]`) equals
`1/3`, the global minimum of the mean squared distance of the three
normalized points to a single center; and the problem's retransform maps
`[1/2, 1/2]` back to `[[2, 2]]`. -/
theorem end_to_end_example :
    normalizeData [[0,0],[2,2],[4,4]] = [[0,0],[1/2,1/2],[1,1]] ∧
    create_cluster_problem fs0 [] [] (.arr [[0,0],[2,2],[4,4]]) 1 1 (.func mse_euclidean) =
      .ok (mkClusterProblem [[0,0],[2,2],[4,4]] "custom" none 1 1 mse_euclidean) ∧
    (mkClusterProblem [[0,0],[2,2],[4,4]] "custom" none 1 1 mse_euclidean).obj
      [1/2, 1/2] = 1/3 ∧
    (∀ a b : ℚ,
      (mkClusterProblem [[0,0],[2,2],[4,4]] "custom" none 1 1 mse_euclidean).obj
        [a, b] ≥ 1/3) ∧
    (mkClusterProblem [[0,0],[2,2],[4,4]] "custom" none 1 1 mse_euclidean).retransform
      [1/2, 1/2] = [[2, 2]] := by
  have hobj : ∀ a b : ℚ,
      (mkClusterProblem [[0,0],[2,2],[4,4]] "custom" none 1 1 mse_euclidean).obj [a, b] =
        ((a ^ 2 + b ^ 2) + ((a - 1/2) ^ 2 + (b - 1/2) ^ 2) +
          ((a - 1) ^ 2 + (b - 1) ^ 2)) / 3 := by
    intro a b
    show mse_euclidean (normalizeData [[0,0],[2,2],[4,4]]) (reshape 1 2 [a, b]) = _
    norm_num [mse_euclidean, normalizeData, normalizeRow, colMin, colMax, colAgg, norm1,
      zipWith3, nearestSq, sqDist, reshape, min_def, max_def]
    ring
  refine ⟨?_, rfl, ?_, ?_, ?_⟩
  · norm_num [normalizeData, normalizeRow, colMin, colMax, colAgg, norm1, zipWith3,
      min_def, max_def]
  · rw [hobj]
    norm_num
  · intro a b
    rw [hobj, ge_iff_le, le_div_iff₀ (by norm_num : (0:ℚ) < 3)]
    nlinarith [sq_nonneg (a - 1/2), sq_nonneg (b - 1/2)]
  · show retransformFn [[0,0],[2,2],[4,4]] 1 [1/2, 1/2] = [[2, 2]]
    norm_num [retransformFn, reshape, ncols, tile, colMin, colMax, colAgg, denorm1,
      zipWith3, min_def, max_def]

end IOHClustering
